import Mathlib

/-!
Shallow embedding of `tb_device_http.py` (ThingsBoard HTTP Device API client).

The module under verification wraps an HTTP session bound to a device access
token.  Its observable behaviour factors into pure functions of the request
data and of the server's response, which are embedded here:

* JSON documents are modelled by `JValue` (objects are association lists of
  string keys, built by the mutual type `JFields`).
* an HTTP response is a status code together with a raw body; the body is
  abstracted by `Content`: empty, non-empty and decodable to a `JValue`, or
  non-empty but malformed.
* Python exceptions that the module can raise are the constructors of
  `PyError`.  `requests.Response.raise_for_status` raises
  `requests.exceptions.HTTPError` exactly for status codes in [400, 600);
  `Response.json` raises a JSON decode error on an empty or malformed body;
  indexing a dict with a missing key raises `KeyError`.  The module's own
  exception classes are `TBHTTPAPIException` and its subclass
  `TBProvisionFailure`; only the latter is ever constructed by the code.
* the long-poll subscription loops of `subscribe_to_attributes` and
  `subscribe_to_rpc` have token-for-token identical bodies (only the endpoint
  URL and log strings differ); their shared iteration logic is
  `subscription_step`, and whole runs against a scripted list of poll results
  are `run_loop` (callback / termination trace) and `sub_loop`
  (stop-event state threading).

Machine integers do not occur: Python integers are unbounded, so `Int` and
`Nat` are exact.  `datetime` objects carry microsecond resolution; a value is
represented by its microsecond count since the Unix epoch once its wall-clock
reading is interpreted as UTC, which is precisely what
`t.replace(tzinfo=timezone.utc).timestamp()` does to a naive datetime.
The float arithmetic of `int(timestamp()*1000)` — one correctly rounded
binary64 division by `10 ** 6`, one correctly rounded binary64 multiplication
by `1000`, then truncation toward zero — is modelled exactly over the
integers (`fl_rat`, `fl_mul_1000`, `dyadic_trunc`): a binary64 value is a
significand/exponent pair, and IEEE-754 round-to-nearest-even of a rational
is computed by integer division with ties to even at the 53rd significand
bit.  Every float reachable here lies far inside the normal finite range, so
the unbounded-exponent model agrees with binary64 exactly.
-/

set_option linter.unusedVariables false

mutual
/-- JSON values, as produced by `Response.json` / sent as request bodies.
Objects are association lists (`JFields`); JSON arrays and floating-point
numbers never reach the logic verified here, so they are omitted from the
model. -/
inductive JValue where
  | jnull
  | jbool (b : Bool)
  | jint (n : Int)
  | jstr (s : String)
  | jobj (fields : JFields)
deriving DecidableEq

/-- Field lists of JSON objects (association lists of string keys). -/
inductive JFields where
  | nil
  | cons (key : String) (value : JValue) (rest : JFields)
deriving DecidableEq
end

/-- Build a `JFields` association list from a Lean list of pairs. -/
def jfields : List (String × JValue) → JFields
  | [] => .nil
  | (k, v) :: rest => .cons k v (jfields rest)

/-- Look a key up in a JSON object's field list (Python `dict` indexing,
successful case). -/
def j_lookup : JFields → String → Option JValue
  | .nil, _ => none
  | .cons k v rest, key => if k = key then some v else j_lookup rest key

/-- Raw body of an HTTP response (`response.content`), abstracted to the three
cases the code distinguishes: empty (falsy in Python), non-empty and JSON
decodable, non-empty but not decodable. -/
inductive Content where
  | empty
  | json (v : JValue)
  | malformed
deriving DecidableEq

/-- Truthiness of `response.content` (`bytes`): empty is falsy. -/
def content_nonempty : Content → Bool
  | .empty => false
  | _ => true

/-- An HTTP response as observed by the client: status code and raw body. -/
structure Response where
  status : Nat
  content : Content
deriving DecidableEq

/-- Python exceptions raisable by the embedded code paths.

`http_error` is `requests.exceptions.HTTPError` (from `raise_for_status`),
which carries the offending response (status and body).  `json_decode_error`
is the decode failure of `Response.json`.  `key_error` is a `KeyError` of
`dict` indexing.  `tb_provision_failure` is the module's `TBProvisionFailure`,
carrying the full decoded response body; it subclasses `TBHTTPAPIException`.
`type_error` models indexing a non-dict JSON value. -/
inductive PyError where
  | http_error (status : Nat) (content : Content)
  | json_decode_error
  | key_error (k : String)
  | type_error
  | tb_provision_failure (device : JValue)
deriving DecidableEq

/-- Whether an exception is an instance of the module's own exception class
`TBHTTPAPIException`.  The class itself is never constructed by the code; its
only instances arise through the subclass `TBProvisionFailure`.
`requests.exceptions.HTTPError` derives from `requests.RequestException`, not
from `TBHTTPAPIException`. -/
def is_tb_http_api_exception : PyError → Bool
  | .tb_provision_failure _ => true
  | _ => false

/-- Embeds `response.raise_for_status()`: `requests` raises `HTTPError` exactly
for status codes in [400, 600) (client and server errors). -/
def raise_for_status (r : Response) : Except PyError Unit :=
  if 400 ≤ r.status ∧ r.status < 600 then .error (.http_error r.status r.content)
  else .ok ()

/-- Embeds `response.json()`: decodes the body, raising a JSON decode error on
an empty or malformed body. -/
def response_json (r : Response) : Except PyError JValue :=
  match r.content with
  | .json v => .ok v
  | _ => .error .json_decode_error

/-- Embeds `TBHTTPClient.publish_data(data, endpoint)` as a function of the
outgoing payload, the endpoint, and the server's response:
`raise_for_status`, then `response.json() if response.content else {}`. -/
def publish_data (data : JValue) (endpoint : String) (r : Response) :
    Except PyError JValue :=
  match raise_for_status r with
  | .error e => .error e
  | .ok _ =>
    if content_nonempty r.content then response_json r else .ok (.jobj .nil)

/-- Embeds `TBHTTPClient.get_data(params, endpoint)` as a function of the query
parameters and the server's response: `raise_for_status`, then
`response.json()` unconditionally. -/
def get_data (params : JValue) (endpoint : String) (r : Response) :
    Except PyError JValue :=
  match raise_for_status r with
  | .error e => .error e
  | .ok _ => response_json r

/-- A Python `datetime` at microsecond resolution, identified by its signed
microsecond count since the Unix epoch once its wall-clock reading is taken as
UTC — exactly the reading `t.replace(tzinfo=timezone.utc)` imposes. -/
structure Datetime where
  epochMicros : Int
deriving DecidableEq

/-- Floor of the base-2 logarithm, by structural recursion on a fuel bound
(each step halves the argument, so fuel `n` more than suffices for input `n`).
Certified below by `nat_log2_le` and `nat_lt_log2`:
`2 ^ nat_log2 n ≤ n < 2 ^ (nat_log2 n + 1)` for positive `n`. -/
def nat_log2_go : Nat → Nat → Nat
  | 0, _ => 0
  | fuel + 1, n => if 2 ≤ n then nat_log2_go fuel (n / 2) + 1 else 0

/-- Floor of the base-2 logarithm of a natural number (0 for input 0). -/
def nat_log2 (n : Nat) : Nat :=
  nat_log2_go n n

/-- Floor of the base-2 logarithm of the positive rational `a / b`: it is
`nat_log2 a - nat_log2 b`, minus one more when `a / b` falls below that power
of two (certified by `floor_log2_le_of_lt` below). -/
def floor_log2 (a b : Nat) : Int :=
  let k := nat_log2 a
  let l := nat_log2 b
  if b * 2 ^ k ≤ a * 2 ^ l then (k : Int) - l else (k : Int) - l - 1

/-- Round the nonnegative rational `N / D` to the nearest integer, ties to
even — the rounding used on significands by IEEE-754 round-to-nearest. -/
def rnd_half_even (N D : Nat) : Nat :=
  let q := N / D
  let r := N % D
  if D < 2 * r then q + 1
  else if 2 * r < D then q
  else if q % 2 = 0 then q else q + 1

/-- IEEE-754 binary64 rounding (round to nearest, ties to even, 53 significand
bits) of the positive rational `a / b`, returned as a significand/exponent
pair `(m, E)` denoting `m * 2 ^ E` with `2 ^ 52 ≤ m ≤ 2 ^ 53`.  The exponent
is unbounded, which agrees with binary64 wherever the value lies in the
normal finite range — true of every value reachable in this module (zero
aside, magnitudes stay within roughly `[10 ^ -6, 2 ^ 60]`, far from both
underflow and overflow). -/
def fl_pos (a b : Nat) : Nat × Int :=
  let E : Int := floor_log2 a b - 52
  (rnd_half_even (a * 2 ^ (-E).toNat) (b * 2 ^ E.toNat), E)

/-- IEEE-754 binary64 rounding of the rational `num / den` (`den` positive),
as a signed significand/exponent pair denoting `m * 2 ^ E`.  Rounding is
symmetric under negation, and zero rounds to zero. -/
def fl_rat (num : Int) (den : Nat) : Int × Int :=
  if num = 0 then (0, 0)
  else if num < 0 then
    let p := fl_pos num.natAbs den
    (-(p.1 : Int), p.2)
  else
    let p := fl_pos num.natAbs den
    ((p.1 : Int), p.2)

/-- The exact rational value denoted by a significand/exponent pair. -/
def dyadic_val (p : Int × Int) : ℚ :=
  (p.1 : ℚ) * (2 : ℚ) ^ p.2

/-- One IEEE-754 binary64 multiplication by `1000` of the double `(m, E)`:
`1000` is exactly representable, the exact product is `(1000 * m) * 2 ^ E`,
and rounding to 53 significand bits commutes with the power-of-two scaling
`2 ^ E`, so it equals rounding the integer `1000 * m` and shifting. -/
def fl_mul_1000 (p : Int × Int) : Int × Int :=
  let q := fl_rat (1000 * p.1) 1
  (q.1, q.2 + p.2)

/-- Python `int()` applied to the finite float `m * 2 ^ E`: truncation toward
zero (`Int.tdiv`). -/
def dyadic_trunc (p : Int × Int) : Int :=
  if 0 ≤ p.2 then p.1 * 2 ^ p.2.toNat
  else Int.tdiv p.1 (2 ^ (-p.2).toNat)

/-- Embeds `int(timestamp.replace(tzinfo=timezone.utc).timestamp()*1000)`
(tb_device_http.py line 77) through CPython's IEEE-754 binary64 arithmetic:

* `timestamp()` on the UTC-aware datetime is `(self - epoch).total_seconds()`,
  which CPython computes as the exact integer microsecond count divided by
  `10 ** 6` in one true division — a single correctly rounded binary64
  division of `epochMicros` by `1000000`;
* `* 1000` is one correctly rounded binary64 multiplication (1000 is exactly
  representable);
* `int()` truncates the resulting float toward zero.

Both roundings use round-to-nearest, ties to even (the IEEE-754 default and
CPython's only mode); every value reachable here lies well inside the normal
finite binary64 range, so the unbounded-exponent model `fl_rat`/`fl_mul_1000`
coincides with binary64 exactly. -/
def datetime_timestamp_ms (t : Datetime) : Int :=
  dyadic_trunc (fl_mul_1000 (fl_rat t.epochMicros 1000000))

/-- Embeds `TBHTTPClient.send_telemetry(telemetry, timestamp)`, returning the
(endpoint, payload) pair handed to `publish_data`.  A `datetime` object is
always truthy, so `if timestamp:` distinguishes exactly `None` from a supplied
value. -/
def send_telemetry (telemetry : JValue) (timestamp : Option Datetime) :
    String × JValue :=
  match timestamp with
  | some t =>
    ("telemetry",
      .jobj (jfields
        [("ts", .jint (datetime_timestamp_ms t)), ("values", telemetry)]))
  | none => ("telemetry", telemetry)

/-- Result of constructing a `TBHTTPClient`; only the fields the claims
observe are retained.  The token is whatever JSON value the provisioning
response carried. -/
structure TBHTTPClient where
  host : String
  token : JValue
  name : Option String
deriving DecidableEq

/-- Python `dict` indexing `v[k]` on a decoded JSON value: `KeyError` when the
key is absent, `TypeError` when the value is not an object. -/
def py_get (v : JValue) (k : String) : Except PyError JValue :=
  match v with
  | .jobj fields =>
    match j_lookup fields k with
    | some x => .ok x
    | none => .error (.key_error k)
  | _ => .error .type_error

/-- Embeds the request body `provision` POSTs to `{host}/api/v1/provision`. -/
def provision_request (device_name device_key device_secret : String) :
    JValue :=
  .jobj (jfields
    [("deviceName", .jstr device_name),
     ("provisionDeviceKey", .jstr device_key),
     ("provisionDeviceSecret", .jstr device_secret)])

/-- Embeds `TBHTTPClient.provision(host, device_name, device_key,
device_secret)` as a function of the provisioning response:
`raise_for_status`, decode the body, then
`if device['status'] == 'SUCCESS' and device['credentialsType'] ==
'ACCESS_TOKEN': return cls(host, device['credentialsValue'], device_name)`
else `raise TBProvisionFailure(device)`.  The match nesting reproduces
Python's evaluation order, including `and` short-circuiting (the
`credentialsType` lookup only happens when the status is `SUCCESS`, and the
`credentialsValue` lookup only on the success branch). -/
def provision (host device_name device_key device_secret : String)
    (r : Response) : Except PyError TBHTTPClient :=
  match raise_for_status r with
  | .error e => .error e
  | .ok _ =>
    match response_json r with
    | .error e => .error e
    | .ok device =>
      match py_get device "status" with
      | .error e => .error e
      | .ok s =>
        if s = .jstr "SUCCESS" then
          match py_get device "credentialsType" with
          | .error e => .error e
          | .ok c =>
            if c = .jstr "ACCESS_TOKEN" then
              match py_get device "credentialsValue" with
              | .error e => .error e
              | .ok v => .ok ⟨host, v, some device_name⟩
            else .error (.tb_provision_failure device)
        else .error (.tb_provision_failure device)

/-- Truthiness of the `timeout` argument (`int`, default `None`): both `None`
and `0` are falsy. -/
def py_truthy : Option Int → Bool
  | none => false
  | some t => t != 0

/-- Embeds `params = {'timeout': timeout} if timeout else {}` computed once in
`subscribe_to_attributes` / `subscribe_to_rpc`: the query parameters attached
to every long-poll GET. -/
def subscribe_params (timeout : Option Int) : List (String × Int) :=
  match timeout with
  | some t => if t ≠ 0 then [("timeout", t)] else []
  | none => []

/-- Verdict of one iteration of a long-poll subscription loop, after its GET
returned: `stop` means `break` was executed (loop terminates cleanly, no
callback), `reconnect` means `continue` (the GET is immediately re-issued),
`deliver v` means `callback(response.json())` was invoked with `v` and the
loop repeats, `fail e` means the iteration raised `e` (killing the loop's
thread). -/
inductive StepResult where
  | stop
  | reconnect
  | deliver (v : JValue)
  | fail (e : PyError)
deriving DecidableEq

/-- Embeds one iteration of the `while True` body shared token-for-token by
`subscribe_to_attributes.subscription` and `subscribe_to_rpc.subscription`
(they differ only in the endpoint URL and log strings):

`if event.is_set(): break` /
`if response.status_code == 408 and timeout: break` /
`if response.status_code == 504: continue` /
`response.raise_for_status()` / `callback(response.json())`.

`stop_set` is the value `event.is_set()` observes after this iteration's GET
returned; `timeout` is the closed-over subscribe-time argument. -/
def subscription_step (timeout : Option Int) (stop_set : Bool)
    (r : Response) : StepResult :=
  if stop_set then .stop
  else if r.status == 408 && py_truthy timeout then .stop
  else if r.status == 504 then .reconnect
  else
    match raise_for_status r with
    | .error e => .fail e
    | .ok _ =>
      match response_json r with
      | .ok v => .deliver v
      | .error e => .fail e

/-- One scripted poll: the body the GET returned, and the stop-event value
observed right after it returned. -/
structure Poll where
  stop_set : Bool
  resp : Response
deriving DecidableEq

/-- How a run of the subscription loop ended: `pending` when the script of
poll results ran out with the loop still going, `stopped` for a clean `break`,
`failed e` when an iteration raised `e`. -/
inductive Outcome where
  | pending
  | stopped
  | failed (e : PyError)
deriving DecidableEq

/-- Observable trace of a subscription-loop run: the callback payloads in
order, how the run ended, and how many GETs completed. -/
structure RunResult where
  callbacks : List JValue
  outcome : Outcome
  polls : Nat
deriving DecidableEq

/-- Runs the subscription loop against a script of poll results, one per
completed GET, collecting the callback trace. -/
def run_loop (timeout : Option Int) : List Poll → RunResult
  | [] => ⟨[], .pending, 0⟩
  | p :: ps =>
    match subscription_step timeout p.stop_set p.resp with
    | .stop => ⟨[], .stopped, 1⟩
    | .fail e => ⟨[], .failed e, 1⟩
    | .reconnect =>
      let r := run_loop timeout ps
      ⟨r.callbacks, r.outcome, r.polls + 1⟩
    | .deliver v =>
      let r := run_loop timeout ps
      ⟨v :: r.callbacks, r.outcome, r.polls + 1⟩

/-- One scripted poll for the event-state run: `unsub` records whether
`unsubscribe` (i.e. `event.set()`) happened while this GET was in flight. -/
structure SubPoll where
  unsub : Bool
  resp : Response
deriving DecidableEq

/-- The subscription loop with the stop event's state threaded through: the
event is set as soon as some poll's `unsub` fires and is observed by
`event.is_set()` on each iteration.  A clean `break` falls through to the
`event.clear()` after the `while` loop; an exception skips it.  Returns the
final event value together with the run's outcome. -/
def sub_loop (timeout : Option Int) (event : Bool) :
    List SubPoll → Bool × Outcome
  | [] => (event, .pending)
  | p :: ps =>
    let ev := event || p.unsub
    match subscription_step timeout ev p.resp with
    | .stop => (false, .stopped)
    | .fail e => (ev, .failed e)
    | _ => sub_loop timeout ev ps

/-- Embeds the whole `subscription()` body: `event.clear()` at the start (the
initial event value is discarded), then the loop, then `event.clear()` after
the loop (already folded into `sub_loop`). -/
def run_subscription (timeout : Option Int) (initial_event : Bool)
    (polls : List SubPoll) : Bool × Outcome :=
  sub_loop timeout false polls

/-- Embeds `unsubscribe_from_attributes` / `unsubscribe_from_rpc`: the stop
event is set (`event.set()`), whatever its previous value. -/
def unsubscribe_event (event : Bool) : Bool :=
  true

deriving instance DecidableEq for Except

/-! Certification lemmas for the binary64 model: `nat_log2` and `floor_log2`
are exact floor logarithms, `rnd_half_even` is exact on exact divisions, the
rounding functions are exact on values representable in 53 significand bits,
and truncation recovers any integer a pair denotes exactly. -/

theorem nat_log2_go_spec (fuel : Nat) : ∀ n : Nat, n ≤ fuel → 0 < n →
    2 ^ nat_log2_go fuel n ≤ n ∧ n < 2 ^ (nat_log2_go fuel n + 1) := by
  induction fuel with
  | zero => intro n hn h0; omega
  | succ fuel ih =>
    intro n hn h0
    by_cases h2 : 2 ≤ n
    · have hrec := ih (n / 2) (by omega) (by omega)
      simp only [nat_log2_go, if_pos h2]
      obtain ⟨l1, l2⟩ := hrec
      constructor
      · have : 2 ^ (nat_log2_go fuel (n / 2) + 1) = 2 * 2 ^ nat_log2_go fuel (n / 2) := by
          ring
        omega
      · have : 2 ^ (nat_log2_go fuel (n / 2) + 1 + 1) = 2 * 2 ^ (nat_log2_go fuel (n / 2) + 1) := by
          ring
        omega
    · simp only [nat_log2_go, if_neg h2]
      omega

theorem nat_log2_le (n : Nat) (h : 0 < n) : 2 ^ nat_log2 n ≤ n :=
  (nat_log2_go_spec n n le_rfl h).1

theorem nat_lt_log2 (n : Nat) (h : 0 < n) : n < 2 ^ (nat_log2 n + 1) :=
  (nat_log2_go_spec n n le_rfl h).2

theorem nat_log2_le_of_lt (y n : Nat) (hy : 0 < y) (h : y < 2 ^ (n + 1)) :
    nat_log2 y ≤ n := by
  by_contra hc
  push_neg at hc
  have h1 : 2 ^ (n + 1) ≤ 2 ^ nat_log2 y :=
    Nat.pow_le_pow_right (by norm_num) hc
  have h2 := nat_log2_le y hy
  omega

theorem rnd_half_even_dvd (N D : Nat) (hD : 0 < D) (h : D ∣ N) :
    rnd_half_even N D = N / D := by
  have hr : N % D = 0 := Nat.mod_eq_zero_of_dvd h
  simp [rnd_half_even, hr, hD]

theorem floor_log2_one (a : Nat) (ha : 0 < a) : floor_log2 a 1 = nat_log2 a := by
  have h1 : nat_log2 1 = 0 := rfl
  simp [floor_log2, h1, nat_log2_le a ha]

theorem floor_log2_le_of_lt (a b n : Nat) (ha : 0 < a) (hb : 0 < b)
    (h : a < b * 2 ^ (n + 1)) : floor_log2 a b ≤ n := by
  unfold floor_log2
  by_cases hc : b * 2 ^ nat_log2 a ≤ a * 2 ^ nat_log2 b
  · rw [if_pos hc]
    have hk : nat_log2 a ≤ nat_log2 b + n := by
      by_contra hk
      push_neg at hk
      have e1 : b * 2 ^ (nat_log2 b + n + 1) ≤ b * 2 ^ nat_log2 a :=
        Nat.mul_le_mul_left b (Nat.pow_le_pow_right (by norm_num) hk)
      have e2 : a * 2 ^ nat_log2 b < b * 2 ^ (nat_log2 b + n + 1) := by
        have e3 : a * 2 ^ nat_log2 b < (b * 2 ^ (n + 1)) * 2 ^ nat_log2 b :=
          mul_lt_mul_of_pos_right h (by positivity)
        have e4 : (b * 2 ^ (n + 1)) * 2 ^ nat_log2 b = b * 2 ^ (nat_log2 b + n + 1) := by
          rw [mul_assoc, ← pow_add]
          ring_nf
        omega
      omega
    omega
  · rw [if_neg hc]
    have h1 : 2 ^ nat_log2 a ≤ a := nat_log2_le a ha
    have h2 : b < 2 ^ (nat_log2 b + 1) := nat_lt_log2 b hb
    have h3 : a < 2 ^ (nat_log2 b + 1 + (n + 1)) := by
      have e1 : b * 2 ^ (n + 1) < 2 ^ (nat_log2 b + 1) * 2 ^ (n + 1) :=
        mul_lt_mul_of_pos_right h2 (by positivity)
      have e2 : 2 ^ (nat_log2 b + 1) * 2 ^ (n + 1) = 2 ^ (nat_log2 b + 1 + (n + 1)) := by
        rw [← pow_add]
      omega
    have h4 : nat_log2 a < nat_log2 b + 1 + (n + 1) := by
      by_contra h5
      push_neg at h5
      have : 2 ^ (nat_log2 b + 1 + (n + 1)) ≤ 2 ^ nat_log2 a :=
        Nat.pow_le_pow_right (by norm_num) h5
      omega
    omega

theorem fl_pos_eq (a b : Nat) :
    fl_pos a b =
      (rnd_half_even (a * 2 ^ (-(floor_log2 a b - 52)).toNat)
        (b * 2 ^ (floor_log2 a b - 52).toNat),
       floor_log2 a b - 52) := rfl

theorem fl_pos_dvd (den c : Nat) (hden : 0 < den) (hc : 0 < c)
    (h53 : c < 2 ^ 53) :
    ∃ d : Nat, fl_pos (den * c) den = (c * 2 ^ d, -(d : Int)) := by
  have hlt : den * c < den * 2 ^ (52 + 1) := by
    have := mul_lt_mul_of_pos_left h53 hden
    omega
  have hE : floor_log2 (den * c) den ≤ 52 :=
    floor_log2_le_of_lt (den * c) den 52 (by positivity) hden hlt
  refine ⟨(-(floor_log2 (den * c) den - 52)).toNat, ?_⟩
  rw [fl_pos_eq]
  generalize hF : floor_log2 (den * c) den = F at hE ⊢
  have ht0 : (F - 52).toNat = 0 := by omega
  rw [ht0, pow_zero, mul_one]
  have hdvd : den ∣ den * c * 2 ^ (-(F - 52)).toNat :=
    ⟨c * 2 ^ (-(F - 52)).toNat, by ring⟩
  rw [rnd_half_even_dvd _ _ hden hdvd, mul_assoc, Nat.mul_div_cancel_left _ hden]
  congr 1
  omega

theorem fl_pos_int_exact (a : Nat)
    (hdvd : 2 ^ (floor_log2 a 1 - 52).toNat ∣ a) :
    ∃ (m : Nat) (E : Int), fl_pos a 1 = (m, E) ∧
      (m : ℚ) * (2 : ℚ) ^ E = (a : ℚ) := by
  by_cases hE : floor_log2 a 1 ≤ 52
  · refine ⟨a * 2 ^ (-(floor_log2 a 1 - 52)).toNat, floor_log2 a 1 - 52, ?_, ?_⟩
    · rw [fl_pos_eq]
      generalize hF : floor_log2 a 1 = F at hE ⊢
      have ht0 : (F - 52).toNat = 0 := by omega
      rw [ht0, pow_zero, mul_one]
      rw [rnd_half_even_dvd _ _ one_pos (one_dvd _), Nat.div_one]
    · generalize hF : floor_log2 a 1 = F at hE ⊢
      have hj : (((-(F - 52)).toNat : Nat) : Int) = -(F - 52) :=
        Int.toNat_of_nonneg (by omega)
      push_cast
      rw [mul_assoc, ← zpow_natCast (2 : ℚ) (-(F - 52)).toNat, hj,
        ← zpow_add₀ (by norm_num : (2 : ℚ) ≠ 0)]
      norm_num
  · push_neg at hE
    obtain ⟨q, hq⟩ := hdvd
    refine ⟨q, floor_log2 a 1 - 52, ?_, ?_⟩
    · rw [fl_pos_eq]
      generalize hF : floor_log2 a 1 = F at hE hq ⊢
      have hnt : (-(F - 52)).toNat = 0 := by omega
      rw [hnt, pow_zero, mul_one, one_mul]
      rw [hq, rnd_half_even_dvd _ _ (by positivity) ⟨q, rfl⟩,
        Nat.mul_div_cancel_left _ (by positivity)]
    · generalize hF : floor_log2 a 1 = F at hE hq ⊢
      have hj : (((F - 52).toNat : Nat) : Int) = F - 52 :=
        Int.toNat_of_nonneg (by omega)
      rw [← hj, zpow_natCast, hq]
      push_cast
      ring

theorem fl_rat_eq_neg (num : Int) (den : Nat) (h : num < 0) :
    fl_rat num den =
      (-(((fl_pos num.natAbs den).1 : Nat) : Int), (fl_pos num.natAbs den).2) := by
  unfold fl_rat
  rw [if_neg (by omega), if_pos h]

theorem fl_rat_eq_pos (num : Int) (den : Nat) (h : 0 < num) :
    fl_rat num den =
      ((((fl_pos num.natAbs den).1 : Nat) : Int), (fl_pos num.natAbs den).2) := by
  unfold fl_rat
  rw [if_neg (by omega), if_neg (by omega)]

theorem fl_rat_dvd (den : Nat) (s : Int) (hden : 0 < den) (hs : s ≠ 0)
    (h53 : s.natAbs < 2 ^ 53) :
    ∃ d : Nat, fl_rat ((den : Int) * s) den = (s * 2 ^ d, -(d : Int)) := by
  obtain ⟨d, hp⟩ := fl_pos_dvd den s.natAbs hden (by omega) h53
  have hna : ((den : Int) * s).natAbs = den * s.natAbs := by
    rw [Int.natAbs_mul, Int.natAbs_ofNat]
  refine ⟨d, ?_⟩
  rcases lt_trichotomy s 0 with hneg | hzero | hpos
  · have hnum : (den : Int) * s < 0 :=
      mul_neg_of_pos_of_neg (by exact_mod_cast hden) hneg
    rw [fl_rat_eq_neg _ _ hnum, hna, hp]
    have habs : ((s.natAbs : Nat) : Int) = -s := by omega
    congr 1
    push_cast [habs]
    ring
  · exact absurd hzero hs
  · have hnum : 0 < (den : Int) * s :=
      mul_pos (by exact_mod_cast hden) hpos
    rw [fl_rat_eq_pos _ _ hnum, hna, hp]
    have habs : ((s.natAbs : Nat) : Int) = s := by omega
    congr 1
    push_cast [habs]
    ring

theorem fl_rat_pow (c : Int) (d : Nat) (hc : c ≠ 0) (h53 : c.natAbs < 2 ^ 53) :
    ∃ (m E : Int), fl_rat (c * 2 ^ d) 1 = (m, E) ∧
      (m : ℚ) * (2 : ℚ) ^ E = (c : ℚ) * 2 ^ d := by
  have hdvd2 : 2 ^ (floor_log2 (c.natAbs * 2 ^ d) 1 - 52).toNat ∣
      c.natAbs * 2 ^ d := by
    have hup : nat_log2 (c.natAbs * 2 ^ d) ≤ 52 + d := by
      apply nat_log2_le_of_lt _ _ (by positivity)
      have h2 : c.natAbs * 2 ^ d < 2 ^ 53 * 2 ^ d :=
        mul_lt_mul_of_pos_right h53 (by positivity)
      have h3 : (2 : Nat) ^ 53 * 2 ^ d = 2 ^ (52 + d + 1) := by
        rw [← pow_add]
        ring_nf
      omega
    have hflog : floor_log2 (c.natAbs * 2 ^ d) 1 = nat_log2 (c.natAbs * 2 ^ d) :=
      floor_log2_one _ (by positivity)
    have hle : (floor_log2 (c.natAbs * 2 ^ d) 1 - 52).toNat ≤ d := by omega
    exact Dvd.dvd.mul_left (pow_dvd_pow 2 hle) c.natAbs
  obtain ⟨m, E, hfl, hval⟩ := fl_pos_int_exact (c.natAbs * 2 ^ d) hdvd2
  have hna : (c * 2 ^ d).natAbs = c.natAbs * 2 ^ d := by
    rw [Int.natAbs_mul, Int.natAbs_pow]
    norm_num
  rcases lt_trichotomy c 0 with hneg | hzero | hpos
  · have hnum : c * 2 ^ d < 0 := mul_neg_of_neg_of_pos hneg (by positivity)
    refine ⟨-(m : Int), E, ?_, ?_⟩
    · rw [fl_rat_eq_neg _ _ hnum, hna, hfl]
    · have habs : ((c.natAbs : Nat) : ℚ) = -(c : ℚ) := by
        rw [Nat.cast_natAbs, abs_of_neg hneg]
        push_cast
        ring
      have hQ : ((c.natAbs * 2 ^ d : Nat) : ℚ) = -(c : ℚ) * 2 ^ d := by
        calc ((c.natAbs * 2 ^ d : Nat) : ℚ)
            = ((c.natAbs : Nat) : ℚ) * ((2 ^ d : Nat) : ℚ) := by push_cast; ring
        _ = -(c : ℚ) * 2 ^ d := by rw [habs]; push_cast; ring
      rw [hQ] at hval
      push_cast
      linear_combination -hval
  · exact absurd hzero hc
  · have hnum : 0 < c * 2 ^ d := mul_pos hpos (by positivity)
    refine ⟨(m : Int), E, ?_, ?_⟩
    · rw [fl_rat_eq_pos _ _ hnum, hna, hfl]
    · have habs : ((c.natAbs : Nat) : ℚ) = (c : ℚ) := by
        rw [Nat.cast_natAbs, abs_of_pos hpos]
      have hQ : ((c.natAbs * 2 ^ d : Nat) : ℚ) = (c : ℚ) * 2 ^ d := by
        calc ((c.natAbs * 2 ^ d : Nat) : ℚ)
            = ((c.natAbs : Nat) : ℚ) * ((2 ^ d : Nat) : ℚ) := by push_cast; ring
        _ = (c : ℚ) * 2 ^ d := by rw [habs]; push_cast; ring
      rw [hQ] at hval
      push_cast
      linear_combination hval

theorem dyadic_trunc_val (m E v : Int) (h : (m : ℚ) * (2 : ℚ) ^ E = (v : ℚ)) :
    dyadic_trunc (m, E) = v := by
  unfold dyadic_trunc
  by_cases hE : 0 ≤ E
  · rw [if_pos hE]
    have h2 : ((m * 2 ^ E.toNat : Int) : ℚ) = (v : ℚ) := by
      push_cast
      rw [← h]
      congr 1
      rw [← zpow_natCast (2 : ℚ) E.toNat, Int.toNat_of_nonneg hE]
    exact_mod_cast h2
  · rw [if_neg hE]
    have hm : m = v * 2 ^ (-E).toNat := by
      have h2 : (m : ℚ) = (v : ℚ) * (2 : ℚ) ^ ((-E).toNat : Nat) := by
        rw [← zpow_natCast (2 : ℚ) (-E).toNat, Int.toNat_of_nonneg (by omega), ← h,
          mul_assoc, ← zpow_add₀ (by norm_num : (2 : ℚ) ≠ 0)]
        norm_num
      exact_mod_cast h2
    rw [hm, Int.mul_tdiv_cancel _ (pow_ne_zero _ (by norm_num))]

theorem datetime_timestamp_ms_whole_second (mu : Int)
    (hdvd : (1000000 : Int) ∣ mu) (hrange : mu.natAbs < 2 ^ 53 * 1000) :
    datetime_timestamp_ms ⟨mu⟩ = Int.fdiv mu 1000 := by
  obtain ⟨s, hmu⟩ := hdvd
  by_cases hs : s = 0
  · subst hs
    norm_num at hmu
    subst hmu
    decide
  · have hnab : mu.natAbs = 1000000 * s.natAbs := by
      rw [hmu, Int.natAbs_mul]
      norm_num
    have hs53 : s.natAbs < 2 ^ 53 := by omega
    have h1000a : (1000 * s).natAbs = 1000 * s.natAbs := by
      rw [Int.natAbs_mul]
      norm_num
    have h1000s : (1000 * s).natAbs < 2 ^ 53 := by omega
    obtain ⟨d, hp⟩ := fl_rat_dvd 1000000 s (by norm_num) hs hs53
    have hmu' : mu = ((1000000 : Nat) : Int) * s := by exact_mod_cast hmu
    obtain ⟨m, E, hq, hval⟩ :=
      fl_rat_pow (1000 * s) d (mul_ne_zero (by norm_num) hs) h1000s
    have hfm : fl_mul_1000 (s * 2 ^ d, -(d : Int)) = (m, E + -(d : Int)) := by
      simp only [fl_mul_1000]
      rw [show 1000 * (s * 2 ^ d) = (1000 * s) * 2 ^ d by ring, hq]
    have hr : Int.fdiv mu 1000 = 1000 * s := by
      rw [show mu = 1000 * (1000 * s) by rw [hmu]; ring,
        Int.mul_fdiv_cancel_left _ (by norm_num)]
    show dyadic_trunc (fl_mul_1000 (fl_rat mu 1000000)) = Int.fdiv mu 1000
    rw [hr, hmu', hp, hfm]
    apply dyadic_trunc_val
    rw [zpow_add₀ (by norm_num : (2 : ℚ) ≠ 0), ← mul_assoc, hval, mul_assoc,
      ← zpow_natCast (2 : ℚ) d, ← zpow_add₀ (by norm_num : (2 : ℚ) ≠ 0)]
    norm_num

/-! Claim theorems. -/

/-- C1, counterexample.  The claim states that `send_telemetry(t, timestamp=T)`
posts `ts = floor(T.utc_epoch_seconds * 1000)`.  Two concrete datetimes refute
it.  For 1969-12-31 23:59:59.999500 UTC (epoch microsecond count -500), the
float pipeline yields -0.5 and `int()` truncates toward zero, posting `ts = 0`
where the claimed floor is -1.  For 2004-03-23 00:00:00.001000 UTC (epoch
microsecond count 1080000000001000), `timestamp()` rounds to the binary64
below the exact value and the `* 1000` product rounds to
1080000000000.9998779296875, so the code posts `ts = 1080000000000` — one
less than the exact milliseconds 1080000000001, which here is both the floor
and the truncation of `T.utc_epoch_seconds * 1000`. -/
theorem tb_C1_counterexample :
    send_telemetry (.jobj .nil) (some ⟨-500⟩) =
      ("telemetry", .jobj (jfields [("ts", .jint 0), ("values", .jobj .nil)]))
    ∧ Int.fdiv (-500) 1000 = -1
    ∧ send_telemetry (.jobj .nil) (some ⟨-500⟩) ≠
      ("telemetry",
        .jobj (jfields
          [("ts", .jint (Int.fdiv (-500) 1000)), ("values", .jobj .nil)]))
    ∧ send_telemetry (.jobj .nil) (some ⟨1080000000001000⟩) =
      ("telemetry",
        .jobj (jfields
          [("ts", .jint 1080000000000), ("values", .jobj .nil)]))
    ∧ Int.fdiv 1080000000001000 1000 = 1080000000001
    ∧ send_telemetry (.jobj .nil) (some ⟨1080000000001000⟩) ≠
      ("telemetry",
        .jobj (jfields
          [("ts", .jint (Int.fdiv 1080000000001000 1000)),
           ("values", .jobj .nil)])) := by
  exact ⟨by decide, by decide, by decide, by decide, by decide, by decide⟩

/-- C1 (amended): for every telemetry mapping `t` and supplied datetime `T`,
`send_telemetry(t, timestamp=T)` posts to the telemetry endpoint exactly the
payload with `values = t` and `ts` the result of the code's float pipeline —
the binary64 division of the epoch microseconds by `10 ^ 6`, the binary64
multiplication by `1000`, then truncation toward zero.  Because of the two
float roundings, `ts` can differ from `floor(T.utc_epoch_seconds * 1000)`;
for whole-second datetimes (microsecond count divisible by `10 ^ 6`, within
range — all real datetimes are) both roundings are exact and the claimed
formula holds.  Without a timestamp, `t` is posted verbatim, with no
`ts`/`values` wrapping. -/
theorem tb_C1_send_telemetry (t : JValue) (T : Datetime) :
    send_telemetry t (some T) =
      ("telemetry",
        .jobj (jfields
          [("ts", .jint (datetime_timestamp_ms T)), ("values", t)]))
    ∧ datetime_timestamp_ms T =
        dyadic_trunc (fl_mul_1000 (fl_rat T.epochMicros 1000000))
    ∧ ((1000000 : Int) ∣ T.epochMicros → T.epochMicros.natAbs < 2 ^ 53 * 1000 →
        datetime_timestamp_ms T = Int.fdiv T.epochMicros 1000)
    ∧ send_telemetry t none = ("telemetry", t) := by
  refine ⟨rfl, rfl, fun hdvd hrange => ?_, rfl⟩
  exact datetime_timestamp_ms_whole_second T.epochMicros hdvd hrange

/-- C1 witness: a concrete whole-second datetime in range, where the float
pipeline is exact and `ts` equals the floored epoch milliseconds. -/
theorem tb_C1_witness :
    ((1000000 : Int) ∣ 1700000000000000)
    ∧ (1700000000000000 : Int).natAbs < 2 ^ 53 * 1000
    ∧ datetime_timestamp_ms ⟨1700000000000000⟩ =
        Int.fdiv 1700000000000000 1000 :=
  ⟨⟨1700000000, by norm_num⟩, by decide,
    (tb_C1_send_telemetry (.jobj .nil) ⟨1700000000000000⟩).2.2.1
      ⟨1700000000, by norm_num⟩ (by decide)⟩

/-- C2, counterexample.  The claim states that a non-2xx response makes
`publish_data` raise `TBHTTPAPIException`.  At status 404 the code's
`raise_for_status()` raises `requests.exceptions.HTTPError`, which is not an
instance of `TBHTTPAPIException`. -/
theorem tb_C2_counterexample :
    publish_data (.jobj .nil) "telemetry" ⟨404, .json (.jobj .nil)⟩ =
      .error (.http_error 404 (.json (.jobj .nil)))
    ∧ is_tb_http_api_exception (.http_error 404 (.json (.jobj .nil))) = false := by
  exact ⟨by decide, rfl⟩

/-- C2 (amended): for every call to `publish_data` or `get_data`, a response
status in [400, 600) makes the operation raise the HTTP library's
`HTTPError`, carrying that status and the response body; no other exception
is raised for that condition, and that exception is not a
`TBHTTPAPIException`. -/
theorem tb_C2_http_error (data params : JValue) (ep1 ep2 : String)
    (r : Response) (h : 400 ≤ r.status ∧ r.status < 600) :
    publish_data data ep1 r = .error (.http_error r.status r.content)
    ∧ get_data params ep2 r = .error (.http_error r.status r.content)
    ∧ is_tb_http_api_exception (.http_error r.status r.content) = false := by
  refine ⟨?_, ?_, rfl⟩ <;> simp [publish_data, get_data, raise_for_status, h]

/-- C2 witness: a concrete 500 response with an empty body. -/
theorem tb_C2_witness :
    (400 ≤ 500 ∧ 500 < 600)
    ∧ publish_data (.jobj .nil) "telemetry" ⟨500, .empty⟩ =
        .error (.http_error 500 .empty) :=
  ⟨⟨by decide, by decide⟩,
    (tb_C2_http_error (.jobj .nil) (.jobj .nil) "telemetry" "attributes"
      ⟨500, .empty⟩ ⟨by decide, by decide⟩).1⟩

/-- C7: for every payload and endpoint, on a 2xx response `publish_data`
returns the decoded JSON body, and an empty 2xx body yields the empty
mapping — never a decode error. -/
theorem tb_C7_publish_data (data : JValue) (endpoint : String) (r : Response)
    (h2xx : 200 ≤ r.status ∧ r.status < 300) :
    (r.content = .empty → publish_data data endpoint r = .ok (.jobj .nil))
    ∧ (∀ v, r.content = .json v → publish_data data endpoint r = .ok v) := by
  have hlt : ¬(400 ≤ r.status ∧ r.status < 600) := by omega
  have hrs : raise_for_status r = .ok () := by simp [raise_for_status, hlt]
  constructor
  · intro he
    simp [publish_data, hrs, he, content_nonempty]
  · intro v hv
    simp [publish_data, hrs, hv, content_nonempty, response_json]

/-- C7 witness: a 200 response with an empty body yields the empty mapping,
and a 200 response carrying a JSON body is returned decoded. -/
theorem tb_C7_witness :
    publish_data (.jobj .nil) "telemetry" ⟨200, .empty⟩ = .ok (.jobj .nil)
    ∧ publish_data (.jobj .nil) "telemetry" ⟨200, .json (.jint 7)⟩ =
        .ok (.jint 7) :=
  ⟨(tb_C7_publish_data (.jobj .nil) "telemetry" ⟨200, .empty⟩
      ⟨by decide, by decide⟩).1 rfl,
    (tb_C7_publish_data (.jobj .nil) "telemetry" ⟨200, .json (.jint 7)⟩
      ⟨by decide, by decide⟩).2 (.jint 7) rfl⟩

/-- C9: for every params mapping and endpoint, `get_data` on a 2xx response
always decodes the body as JSON; unlike `publish_data`, an empty 2xx body is
not tolerated and yields a decode error rather than an empty mapping. -/
theorem tb_C9_get_data (params : JValue) (endpoint : String) (r : Response)
    (h2xx : 200 ≤ r.status ∧ r.status < 300) :
    get_data params endpoint r = response_json r
    ∧ (r.content = .empty →
        get_data params endpoint r = .error .json_decode_error
        ∧ ∀ data ep, publish_data data ep r = .ok (.jobj .nil)) := by
  have hlt : ¬(400 ≤ r.status ∧ r.status < 600) := by omega
  have hrs : raise_for_status r = .ok () := by simp [raise_for_status, hlt]
  constructor
  · simp [get_data, hrs]
  · intro he
    refine ⟨by simp [get_data, hrs, response_json, he], fun data ep => ?_⟩
    simp [publish_data, hrs, he, content_nonempty]

/-- C9 witness: a 200 response with an empty body makes `get_data` fail with a
decode error while `publish_data` returns the empty mapping. -/
theorem tb_C9_witness :
    get_data (.jobj .nil) "attributes" ⟨200, .empty⟩ =
      .error .json_decode_error
    ∧ publish_data (.jobj .nil) "telemetry" ⟨200, .empty⟩ = .ok (.jobj .nil) :=
  ⟨((tb_C9_get_data (.jobj .nil) "attributes" ⟨200, .empty⟩
      ⟨by decide, by decide⟩).2 rfl).1,
    ((tb_C9_get_data (.jobj .nil) "attributes" ⟨200, .empty⟩
      ⟨by decide, by decide⟩).2 rfl).2 (.jobj .nil) "telemetry"⟩

/-- C3: for every 2xx provisioning response whose decoded body has `status`
and `credentialsType` fields, `provision(host, name, key, secret)` returns a
client whose token is the body's `credentialsValue` and whose name is the
given device name when `status == 'SUCCESS'` and `credentialsType ==
'ACCESS_TOKEN'`, and raises `TBProvisionFailure` carrying the full body for
every other status/credentialsType combination. -/
theorem tb_C3_provision (host dn dk ds : String) (r : Response)
    (device s c : JValue)
    (h2xx : 200 ≤ r.status ∧ r.status < 300)
    (hbody : r.content = .json device)
    (hs : py_get device "status" = .ok s)
    (hc : py_get device "credentialsType" = .ok c) :
    ((s = .jstr "SUCCESS" ∧ c = .jstr "ACCESS_TOKEN") →
      ∀ v, py_get device "credentialsValue" = .ok v →
        provision host dn dk ds r = .ok ⟨host, v, some dn⟩)
    ∧ (¬(s = .jstr "SUCCESS" ∧ c = .jstr "ACCESS_TOKEN") →
        provision host dn dk ds r = .error (.tb_provision_failure device)) := by
  have hlt : ¬(400 ≤ r.status ∧ r.status < 600) := by omega
  have hrs : raise_for_status r = .ok () := by simp [raise_for_status, hlt]
  have hj : response_json r = .ok device := by simp [response_json, hbody]
  constructor
  · rintro ⟨rfl, rfl⟩ v hv
    simp [provision, hrs, hj, hs, hc, hv]
  · intro hn
    by_cases h1 : s = .jstr "SUCCESS"
    · subst h1
      have h2 : c ≠ .jstr "ACCESS_TOKEN" := fun h => hn ⟨rfl, h⟩
      simp [provision, hrs, hj, hs, hc, h2]
    · simp [provision, hrs, hj, hs, h1]

/-- C3 witness: a concrete successful provisioning exchange yields a client
with the returned token, and a concrete failed one raises
`TBProvisionFailure` with the full body. -/
theorem tb_C3_witness :
    provision "http-host" "dev1" "k" "sec"
      ⟨200, .json (.jobj (jfields
        [("status", .jstr "SUCCESS"),
         ("credentialsType", .jstr "ACCESS_TOKEN"),
         ("credentialsValue", .jstr "X")]))⟩ =
      .ok ⟨"http-host", .jstr "X", some "dev1"⟩
    ∧ provision "http-host" "dev1" "k" "sec"
      ⟨200, .json (.jobj (jfields
        [("status", .jstr "FAILURE"),
         ("credentialsType", .jstr "ACCESS_TOKEN")]))⟩ =
      .error (.tb_provision_failure (.jobj (jfields
        [("status", .jstr "FAILURE"),
         ("credentialsType", .jstr "ACCESS_TOKEN")]))) :=
  ⟨(tb_C3_provision "http-host" "dev1" "k" "sec" _ _
      (.jstr "SUCCESS") (.jstr "ACCESS_TOKEN")
      ⟨by decide, by decide⟩ rfl (by decide) (by decide)).1
      ⟨rfl, rfl⟩ (.jstr "X") (by decide),
    (tb_C3_provision "http-host" "dev1" "k" "sec" _ _
      (.jstr "FAILURE") (.jstr "ACCESS_TOKEN")
      ⟨by decide, by decide⟩ rfl (by decide) (by decide)).2
      (by simp)⟩

/-- C4: in any iteration of a long-poll subscription loop where the stop
signal is not set and the response status is 504, the step is `reconnect`
(no callback, no exception, no termination), and on a whole run the 504 poll
leaves the callback trace and the outcome unchanged while costing exactly one
more GET — the request is immediately re-issued. -/
theorem tb_C4_gateway_timeout (timeout : Option Int) (r : Response)
    (rest : List Poll) (h504 : r.status = 504) :
    subscription_step timeout false r = .reconnect
    ∧ (run_loop timeout (⟨false, r⟩ :: rest)).callbacks =
        (run_loop timeout rest).callbacks
    ∧ (run_loop timeout (⟨false, r⟩ :: rest)).outcome =
        (run_loop timeout rest).outcome
    ∧ (run_loop timeout (⟨false, r⟩ :: rest)).polls =
        (run_loop timeout rest).polls + 1 := by
  have hstep : subscription_step timeout false r = .reconnect := by
    simp [subscription_step, h504]
  refine ⟨hstep, ?_, ?_, ?_⟩ <;> simp [run_loop, hstep]

/-- C4 witness: a concrete 504 poll before an empty script. -/
theorem tb_C4_witness :
    subscription_step none false ⟨504, .empty⟩ = .reconnect
    ∧ (run_loop none [⟨false, ⟨504, .empty⟩⟩]).polls =
        (run_loop none []).polls + 1 :=
  ⟨(tb_C4_gateway_timeout none ⟨504, .empty⟩ [] rfl).1,
    (tb_C4_gateway_timeout none ⟨504, .empty⟩ [] rfl).2.2.2⟩

/-- C5, counterexample.  The claim states that whenever a timeout parameter
was supplied at subscribe time, a 408 poll response with the stop signal
unset terminates the loop cleanly without raising.  Supplying `timeout=0` is
falsy in Python (`... and timeout`), so the 408 falls through to
`raise_for_status()` and the iteration raises `HTTPError` instead of
breaking. -/
theorem tb_C5_counterexample :
    subscription_step (some 0) false ⟨408, .json (.jobj .nil)⟩ =
      .fail (.http_error 408 (.json (.jobj .nil)))
    ∧ subscription_step (some 0) false ⟨408, .json (.jobj .nil)⟩ ≠ .stop := by
  refine ⟨by decide, by decide⟩

/-- C5 (amended): in every iteration of either long-poll subscription loop,
if the stop signal is not set, a nonzero (truthy) timeout was supplied at
subscribe time, and the poll response has status 408, the loop terminates
cleanly in that iteration: the step is `stop`, and the whole run ends
`stopped` with no callback invoked and no exception raised. -/
theorem tb_C5_request_timeout (t : Int) (r : Response) (rest : List Poll)
    (ht : t ≠ 0) (h408 : r.status = 408) :
    subscription_step (some t) false r = .stop
    ∧ run_loop (some t) (⟨false, r⟩ :: rest) = ⟨[], .stopped, 1⟩ := by
  have htr : py_truthy (some t) = true := by simp [py_truthy, ht]
  have hstep : subscription_step (some t) false r = .stop := by
    simp [subscription_step, h408, htr]
  exact ⟨hstep, by simp [run_loop, hstep]⟩

/-- C5 witness: timeout 5 and a concrete 408 response. -/
theorem tb_C5_witness :
    run_loop (some 5) [⟨false, ⟨408, .empty⟩⟩] = ⟨[], .stopped, 1⟩ :=
  (tb_C5_request_timeout 5 ⟨408, .empty⟩ [] (by decide) rfl).2

/-- C10: calling subscribe with `timeout=0` behaves identically to calling it
with no timeout: the timeout query parameter is omitted from every poll
request, every loop iteration behaves the same, and in particular a 408
response does not terminate the loop cleanly but falls through to the
non-2xx error path. -/
theorem tb_C10_timeout_zero :
    subscribe_params (some 0) = subscribe_params none
    ∧ (∀ (stop_set : Bool) (r : Response),
        subscription_step (some 0) stop_set r =
          subscription_step none stop_set r)
    ∧ (∀ c : Content,
        subscription_step (some 0) false ⟨408, c⟩ =
          .fail (.http_error 408 c)) := by
  have h0 : py_truthy (some 0) = false := by decide
  have hn : py_truthy none = false := rfl
  refine ⟨rfl, fun stop_set r => ?_, fun c => ?_⟩
  · simp [subscription_step, h0, hn]
  · simp [subscription_step, h0, raise_for_status, response_json]

/-- C6: once the stop signal is observed set after some poll returns, the loop
terminates at that poll at the latest: the run's callback trace is exactly the
trace produced by the preceding polls alone (the callback is never invoked at
or after the poll that observes the signal), at most one poll beyond the
preceding ones completes, and the loop does not keep running. -/
theorem tb_C6_unsubscribe (timeout : Option Int) (pre post : List Poll)
    (p : Poll) (h : p.stop_set = true) :
    (run_loop timeout (pre ++ p :: post)).callbacks =
      (run_loop timeout pre).callbacks
    ∧ (run_loop timeout (pre ++ p :: post)).polls ≤ pre.length + 1
    ∧ (run_loop timeout (pre ++ p :: post)).outcome ≠ .pending := by
  induction pre with
  | nil =>
    have hstep : subscription_step timeout p.stop_set p.resp = .stop := by
      simp [subscription_step, h]
    simp [run_loop, hstep]
  | cons q qs ih =>
    obtain ⟨ih1, ih2, ih3⟩ := ih
    cases hq : subscription_step timeout q.stop_set q.resp with
    | stop => simp [run_loop, hq]
    | fail e => simp [run_loop, hq]
    | reconnect =>
      refine ⟨by simp [run_loop, hq, ih1], ?_,
        by simpa [run_loop, hq] using ih3⟩
      simp [run_loop, hq]
      omega
    | deliver v =>
      refine ⟨by simp [run_loop, hq, ih1], ?_,
        by simpa [run_loop, hq] using ih3⟩
      simp [run_loop, hq]
      omega

/-- C6 witness: one delivering poll, then a poll that observes the signal set,
then further scripted polls that are never issued. -/
theorem tb_C6_witness :
    (run_loop none
      [⟨false, ⟨200, .json (.jint 1)⟩⟩, ⟨true, ⟨200, .json (.jint 2)⟩⟩,
        ⟨false, ⟨200, .json (.jint 3)⟩⟩]).callbacks =
      (run_loop none [⟨false, ⟨200, .json (.jint 1)⟩⟩]).callbacks
    ∧ (run_loop none
      [⟨false, ⟨200, .json (.jint 1)⟩⟩, ⟨true, ⟨200, .json (.jint 2)⟩⟩,
        ⟨false, ⟨200, .json (.jint 3)⟩⟩]).polls ≤ 2 :=
  ⟨(tb_C6_unsubscribe none [⟨false, ⟨200, .json (.jint 1)⟩⟩]
      [⟨false, ⟨200, .json (.jint 3)⟩⟩] ⟨true, ⟨200, .json (.jint 2)⟩⟩ rfl).1,
    (tb_C6_unsubscribe none [⟨false, ⟨200, .json (.jint 1)⟩⟩]
      [⟨false, ⟨200, .json (.jint 3)⟩⟩] ⟨true, ⟨200, .json (.jint 2)⟩⟩ rfl).2.1⟩

/-- C8, counterexample.  The claim states the stop signal is set at loop end.
In a run where `unsubscribe` fired during the only poll, the loop breaks —
and the `event.clear()` after the `while` loop leaves the signal cleared, not
set, at loop end. -/
theorem tb_C8_counterexample :
    run_subscription none true [⟨true, ⟨200, .json (.jobj .nil)⟩⟩] =
      (false, .stopped)
    ∧ (run_subscription none true [⟨true, ⟨200, .json (.jobj .nil)⟩⟩]).1 ≠
        true := by
  refine ⟨by decide, by decide⟩

/-- C8 (amended): for each subscription kind's stop signal, it is cleared at
loop start (the run is independent of the signal's prior value), cleared
again at loop end (any run that terminates by a break ends with the signal
cleared), and it is set on explicit unsubscribe. -/
theorem tb_C8_event_lifecycle (timeout : Option Int) (e e' : Bool)
    (polls : List SubPoll) :
    run_subscription timeout e polls = run_subscription timeout e' polls
    ∧ ((run_subscription timeout e polls).2 = .stopped →
        (run_subscription timeout e polls).1 = false)
    ∧ unsubscribe_event e = true := by
  refine ⟨rfl, ?_, rfl⟩
  have key : ∀ (ps : List SubPoll) (ev : Bool),
      (sub_loop timeout ev ps).2 = .stopped →
        (sub_loop timeout ev ps).1 = false := by
    intro ps
    induction ps with
    | nil =>
      intro ev hstop
      simp [sub_loop] at hstop
    | cons p ps ih =>
      intro ev hstop
      cases hq : subscription_step timeout (ev || p.unsub) p.resp with
      | stop => simp [sub_loop, hq]
      | reconnect =>
        have h' : (sub_loop timeout (ev || p.unsub) ps).2 = .stopped := by
          simpa [sub_loop, hq] using hstop
        simpa [sub_loop, hq] using ih _ h'
      | deliver v =>
        have h' : (sub_loop timeout (ev || p.unsub) ps).2 = .stopped := by
          simpa [sub_loop, hq] using hstop
        simpa [sub_loop, hq] using ih _ h'
      | fail err =>
        simp [sub_loop, hq] at hstop
  exact key polls false

/-- C8 witness: a run terminated by its configured timeout ends with the
signal cleared. -/
theorem tb_C8_witness :
    (run_subscription (some 5) true [⟨false, ⟨408, .empty⟩⟩]).2 = .stopped
    ∧ (run_subscription (some 5) true [⟨false, ⟨408, .empty⟩⟩]).1 = false :=
  ⟨by decide,
    (tb_C8_event_lifecycle (some 5) true false
      [⟨false, ⟨408, .empty⟩⟩]).2.1 (by decide)⟩
